import Mathlib

/-!
Verification of the Temp-Gen template generator.

The data model follows `types.ts`; the UI handler follows `App.tsx`
(`handleGenerate`, `handleDownloadZip`, the `projectOptions` state); the
architecture service follows `services/architectureService.ts`.  The
generation engine `generateFiles` lives in `services/templateService.ts`,
a file referenced by the application but absent from the sources at hand,
so the engine is modelled from the specification (see the doc comments of
the engine definitions below).
-/

namespace TempGen

/-- Closed enumeration of supported templates, from `types.ts`. -/
inductive TemplateType
  | TYPESCRIPT_EXPRESS
  | GO_CLEAN_ARCH
  | CLI_TOOL
deriving DecidableEq, Repr

/-- String value of each enum member, from `types.ts`. -/
def TemplateType.value : TemplateType → String
  | .TYPESCRIPT_EXPRESS => "TypeScript/Express"
  | .GO_CLEAN_ARCH => "Go/Clean-Arch"
  | .CLI_TOOL => "Node.js CLI (temp-gen)"

/-- Output unit of the engine, from `types.ts`. -/
structure GeneratedFile where
  path : String
  content : String
  language : String
deriving DecidableEq, Repr

/-- Option record of independent boolean switches, from `types.ts`
(`ProjectOptions`). -/
structure ProjectOptions where
  includeTests : Bool
  includeLinter : Bool
deriving DecidableEq, Repr

/-- Aggregate result of one generation, from `types.ts`. -/
structure ProjectStructure where
  projectName : String
  template : TemplateType
  files : List GeneratedFile
deriving DecidableEq, Repr

/-- Architecture explanation record, from `types.ts`. -/
structure ArchitectureInfo where
  overview : String
  keyFeatures : List String
  deploymentStrategy : String
deriving DecidableEq, Repr

/-- Modelled from the spec: a fragment of a content template of the missing
`templateService.ts`.  A content template is an ordered concatenation of a
fixed skeleton (`lit`), project-name placeholders (`name`), and fragments
independently toggled by one option flag (`whenTests`, `whenLinter`). -/
inductive Piece
  | lit (s : String)
  | name
  | whenTests (s : String)
  | whenLinter (s : String)
deriving DecidableEq, Repr

/-- Modelled from the spec: a fragment of a path pattern of the missing
`templateService.ts`; a path may embed the project name but carries no
option-conditional fragment. -/
inductive PathPiece
  | lit (s : String)
  | name
deriving DecidableEq, Repr

/-- Modelled from the spec: the gating predicate of a blueprint over the
options record — an always-true baseline gate or a single required-option
gate. -/
inductive Gate
  | always
  | needsTests
  | needsLinter
deriving DecidableEq, Repr

/-- Evaluation of a gating predicate against the options record. -/
def Gate.eval : Gate → ProjectOptions → Bool
  | .always, _ => true
  | .needsTests, o => o.includeTests
  | .needsLinter, o => o.includeLinter

/-- Modelled from the spec: the static definition of one candidate file of a
template in the missing `templateService.ts` — a path pattern, a content
template, a declared language tag, and its gating predicate. -/
structure FileBlueprint where
  path : List PathPiece
  content : List Piece
  language : String
  gate : Gate
deriving DecidableEq, Repr

/-- Rendering of one path fragment: the placeholder is replaced by the
literal project name. -/
def pathPieceRender (projectName : String) : PathPiece → String
  | .lit s => s
  | .name => projectName

/-- Rendering of a path pattern by ordered concatenation. -/
def renderPath (projectName : String) : List PathPiece → String
  | [] => ""
  | p :: rest => pathPieceRender projectName p ++ renderPath projectName rest

/-- Rendering of one content fragment: literals pass through, the
placeholder is replaced by the project name, and a conditional fragment
renders to its text exactly when its own flag is set. -/
def pieceRender (projectName : String) (opts : ProjectOptions) : Piece → String
  | .lit s => s
  | .name => projectName
  | .whenTests s => if opts.includeTests then s else ""
  | .whenLinter s => if opts.includeLinter then s else ""

/-- Rendering of a content template by ordered concatenation of its
fragments. -/
def renderPieces (projectName : String) (opts : ProjectOptions) : List Piece → String
  | [] => ""
  | p :: rest => pieceRender projectName opts p ++ renderPieces projectName opts rest

/-- Modelled from the spec: the fixed, hand-authored blueprint catalog of the
TypeScript/Express template in the missing `templateService.ts` — baseline
core files, containerization file and dependency descriptor, plus test files
gated by `includeTests` and lint configuration gated by `includeLinter`. -/
def tsExpressCatalog : List FileBlueprint :=
  [ { path := [.lit "package.json"],
      content :=
        [ .lit "\x7b\n  \"name\": \"", .name,
          .lit "\",\n  \"version\": \"1.0.0\",\n  \"dependencies\": \x7b\n    \"express\": \"^4.18.2\"\n  \x7d,\n  \"devDependencies\": \x7b\n    \"typescript\": \"^5.8.0\"",
          .whenTests ",\n    \"jest\": \"^29.7.0\"",
          .whenLinter ",\n    \"eslint\": \"^8.57.0\"",
          .lit "\n  \x7d\n\x7d\n" ],
      language := "json", gate := .always },
    { path := [.lit "tsconfig.json"],
      content :=
        [ .lit "\x7b\n  \"compilerOptions\": \x7b\n    \"target\": \"ES2024\",\n    \"outDir\": \"dist\"\n  \x7d\n\x7d\n" ],
      language := "json", gate := .always },
    { path := [.lit "src/index.ts"],
      content :=
        [ .lit "import express from \"express\";\n\nconst app = express();\n\napp.listen(3000, () => \x7b\n  console.log(\"", .name,
          .lit " listening on port 3000\");\n\x7d);\n" ],
      language := "typescript", gate := .always },
    { path := [.lit "src/services/userService.ts"],
      content :=
        [ .lit "export class UserService \x7b\n  getUsers() \x7b\n    return [];\n  \x7d\n\x7d\n" ],
      language := "typescript", gate := .always },
    { path := [.lit "Dockerfile"],
      content :=
        [ .lit "FROM node:18-alpine\nLABEL service=\"", .name,
          .lit "\"\nWORKDIR /app\nCOPY . .\nRUN npm install\nCMD [\"node\", \"dist/index.js\"]\n" ],
      language := "dockerfile", gate := .always },
    { path := [.lit "README.md"],
      content := [ .lit "# ", .name, .lit "\n\nGenerated project.\n" ],
      language := "markdown", gate := .always },
    { path := [.lit "jest.config.js"],
      content := [ .lit "module.exports = \x7b\n  preset: \"ts-jest\"\n\x7d;\n" ],
      language := "javascript", gate := .needsTests },
    { path := [.lit "src/services/userService.test.ts"],
      content :=
        [ .lit "import \x7b UserService \x7d from \"./userService\";\n\ndescribe(\"", .name,
          .lit "\", () => \x7b\n  it(\"returns users\", () => \x7b\n    expect(new UserService().getUsers()).toEqual([]);\n  \x7d);\n\x7d);\n" ],
      language := "typescript", gate := .needsTests },
    { path := [.lit ".eslintrc.json"],
      content := [ .lit "\x7b\n  \"extends\": \"eslint:recommended\"\n\x7d\n" ],
      language := "json", gate := .needsLinter } ]

/-- Modelled from the spec: the fixed blueprint catalog of the
Go/Clean-Arch template in the missing `templateService.ts`. -/
def goCleanArchCatalog : List FileBlueprint :=
  [ { path := [.lit "go.mod"],
      content := [ .lit "module ", .name, .lit "\n\ngo 1.21\n" ],
      language := "go", gate := .always },
    { path := [.lit "cmd/main.go"],
      content :=
        [ .lit "package main\n\nimport \"fmt\"\n\nfunc main() \x7b\n  fmt.Println(\"", .name,
          .lit "\")\n\x7d\n" ],
      language := "go", gate := .always },
    { path := [.lit "internal/domain/user.go"],
      content :=
        [ .lit "package domain\n\ntype User struct \x7b\n  ID   int\n  Name string\n\x7d\n" ],
      language := "go", gate := .always },
    { path := [.lit "internal/usecase/user_usecase.go"],
      content :=
        [ .lit "package usecase\n\nfunc ListUsers() []int \x7b\n  return nil\n\x7d\n" ],
      language := "go", gate := .always },
    { path := [.lit "Dockerfile"],
      content :=
        [ .lit "FROM golang:1.21-alpine AS build\nWORKDIR /src\nCOPY . .\nRUN go build -o /bin/", .name,
          .lit " ./cmd\n\nFROM alpine\nCOPY --from=build /bin/", .name,
          .lit " /bin/app\nCMD [\"/bin/app\"]\n" ],
      language := "dockerfile", gate := .always },
    { path := [.lit "Makefile"],
      content :=
        [ .lit "build:\n\tgo build ./...\n",
          .whenTests "test:\n\tgo test ./...\n",
          .whenLinter "lint:\n\tgolangci-lint run\n" ],
      language := "makefile", gate := .always },
    { path := [.lit "README.md"],
      content := [ .lit "# ", .name, .lit "\n\nGenerated project.\n" ],
      language := "markdown", gate := .always },
    { path := [.lit "internal/domain/user_test.go"],
      content :=
        [ .lit "package domain\n\nimport \"testing\"\n\nfunc TestUser(t *testing.T) \x7b\n  _ = User\x7bID: 1, Name: \"", .name,
          .lit "\"\x7d\n\x7d\n" ],
      language := "go", gate := .needsTests },
    { path := [.lit ".golangci.yml"],
      content := [ .lit "linters:\n  enable:\n    - govet\n    - staticcheck\n" ],
      language := "yaml", gate := .needsLinter } ]

/-- Modelled from the spec: the fixed blueprint catalog of the Node.js CLI
template in the missing `templateService.ts`; the CLI template has no
containerization file. -/
def cliToolCatalog : List FileBlueprint :=
  [ { path := [.lit "package.json"],
      content :=
        [ .lit "\x7b\n  \"name\": \"", .name,
          .lit "\",\n  \"version\": \"1.0.0\",\n  \"bin\": \x7b\n    \"", .name,
          .lit "\": \"dist/cli.js\"\n  \x7d,\n  \"dependencies\": \x7b\n    \"commander\": \"^11.0.0\",\n    \"inquirer\": \"^9.0.0\"\n  \x7d,\n  \"devDependencies\": \x7b\n    \"typescript\": \"^5.8.0\"",
          .whenTests ",\n    \"jest\": \"^29.7.0\"",
          .whenLinter ",\n    \"eslint\": \"^8.57.0\"",
          .lit "\n  \x7d\n\x7d\n" ],
      language := "json", gate := .always },
    { path := [.lit "src/cli.ts"],
      content :=
        [ .lit "#!/usr/bin/env node\nimport \x7b Command \x7d from \"commander\";\n\nconst program = new Command();\nprogram.name(\"", .name,
          .lit "\").description(\"CLI tool\").version(\"1.0.0\");\nprogram.parse();\n" ],
      language := "typescript", gate := .always },
    { path := [.lit "README.md"],
      content := [ .lit "# ", .name, .lit "\n\nGenerated project.\n" ],
      language := "markdown", gate := .always },
    { path := [.lit "src/cli.test.ts"],
      content :=
        [ .lit "describe(\"", .name,
          .lit " cli\", () => \x7b\n  it(\"runs\", () => \x7b\n    expect(true).toBe(true);\n  \x7d);\n\x7d);\n" ],
      language := "typescript", gate := .needsTests },
    { path := [.lit ".eslintrc.json"],
      content := [ .lit "\x7b\n  \"extends\": \"eslint:recommended\"\n\x7d\n" ],
      language := "json", gate := .needsLinter } ]

/-- Modelled from the spec: the process-wide immutable blueprint catalog of
the missing `templateService.ts`, keyed by template. -/
def catalog : TemplateType → List FileBlueprint
  | .TYPESCRIPT_EXPRESS => tsExpressCatalog
  | .GO_CLEAN_ARCH => goCleanArchCatalog
  | .CLI_TOOL => cliToolCatalog

/-- Resolution of one retained blueprint: substitute the project name in the
path and content and copy the declared language tag. -/
def resolveBlueprint (projectName : String) (opts : ProjectOptions)
    (bp : FileBlueprint) : GeneratedFile :=
  { path := renderPath projectName bp.path
    content := renderPieces projectName opts bp.content
    language := bp.language }

/-- Modelled from the spec: the pure generation engine `generateFiles` of
the missing `templateService.ts` — look up the ordered catalog of the
template, filter by gating predicate, and resolve each retained blueprint in
catalog declaration order. -/
def generateFiles (projectName : String) (template : TemplateType)
    (opts : ProjectOptions) : List GeneratedFile :=
  ((catalog template).filter (fun bp => bp.gate.eval opts)).map
    (resolveBlueprint projectName opts)

/-- Modelled from the spec: dispatch of a raw template identifier string
onto the closed template set of the missing `templateService.ts`. -/
def parseTemplateType (id : String) : Option TemplateType :=
  if id = "TypeScript/Express" then some .TYPESCRIPT_EXPRESS
  else if id = "Go/Clean-Arch" then some .GO_CLEAN_ARCH
  else if id = "Node.js CLI (temp-gen)" then some .CLI_TOOL
  else none

/-- Modelled from the spec: the engine entry point of the missing
`templateService.ts` at the raw-identifier boundary; an identifier outside
the closed supported set is a precondition violation — the call fails and no
file list, empty or partial, is produced. -/
def generateFilesChecked (projectName : String) (id : String)
    (opts : ProjectOptions) : Except String (List GeneratedFile) :=
  match parseTemplateType id with
  | some t => .ok (generateFiles projectName t opts)
  | none => .error ("Unknown template: " ++ id)

/-- Initial value of the `projectOptions` UI state, from `App.tsx`. -/
def initialProjectOptions : ProjectOptions :=
  { includeTests := true, includeLinter := true }

/-- Mock response of `architectureService.ts` for TypeScript/Express. -/
def tsExpressArchInfo : ArchitectureInfo :=
  { overview := "Express.js provides a lightweight and flexible framework for building scalable microservices. It offers excellent middleware support and integrates seamlessly with TypeScript for type-safe development."
    keyFeatures :=
      [ "Middleware-based request handling",
        "Async/await support for clean async code",
        "Extensive ecosystem of compatible packages" ]
    deploymentStrategy := "Deploy as containerized service using Docker. Use environment variables for configuration. Consider using PM2 or similar process managers for production stability." }

/-- Mock response of `architectureService.ts` for Go/Clean-Arch. -/
def goCleanArchInfo : ArchitectureInfo :=
  { overview := "Go excels at building efficient, concurrent microservices with minimal resource usage. Its built-in concurrency primitives and fast compilation make it ideal for high-performance services."
    keyFeatures :=
      [ "Goroutines for efficient concurrency",
        "Fast compilation to binary",
        "Built-in testing framework" ]
    deploymentStrategy := "Compile to a single binary and run directly or containerize with minimal Docker images. Go\x27s static compilation makes deployment straightforward and efficient." }

/-- Mock response of `architectureService.ts` for the Node.js CLI. -/
def cliToolArchInfo : ArchitectureInfo :=
  { overview := "Node.js CLI tools leverage JavaScript/TypeScript for cross-platform command-line utilities. They\x27re perfect for development tools and automation scripts."
    keyFeatures :=
      [ "Universal Node.js ecosystem",
        "Cross-platform compatibility",
        "Interactive prompt handling with libraries like inquirer" ]
    deploymentStrategy := "Publish to npm registry. Users can install globally with npm install -g. Include proper error handling and help documentation." }

/-- Generic fallback returned by `architectureService.ts` for an identifier
outside the mock-response record. -/
def genericArchInfo : ArchitectureInfo :=
  { overview := "Architecture details for the selected template."
    keyFeatures := [ "Feature 1", "Feature 2" ]
    deploymentStrategy := "Deploy using standard practices for this stack." }

/-- Record lookup with fallback, from `getArchitectureExplanation` of
`architectureService.ts`: the mock-response record is indexed by the string
value of the template, and a missed lookup falls back to the generic
record. -/
def getArchitectureExplanation (template : String) : ArchitectureInfo :=
  if template = "TypeScript/Express" then tsExpressArchInfo
  else if template = "Go/Clean-Arch" then goCleanArchInfo
  else if template = "Node.js CLI (temp-gen)" then cliToolArchInfo
  else genericArchInfo

/-- Type of the generation engine as called by the UI handler; the call may
fail (a thrown error in the application is caught by the handler). -/
abbrev EngineFn := String → TemplateType → ProjectOptions → Except String (List GeneratedFile)

/-- UI state touched by `handleGenerate`, from the `useState` hooks of
`App.tsx`. -/
structure AppState where
  projectName : String
  template : TemplateType
  logs : List String
  isGenerating : Bool
  result : Option ProjectStructure
  explanation : Option ArchitectureInfo
  selectedFile : Option GeneratedFile
  projectOptions : ProjectOptions
deriving DecidableEq, Repr

/-- Log lines appended by `handleGenerate` in `App.tsx` before the engine
call returns. -/
def preLogs (s : AppState) : List String :=
  s.logs ++
    [ "Starting generation...",
      "Template: " ++ s.template.value,
      "Include Tests: " ++ (if s.projectOptions.includeTests then "Yes" else "No"),
      "Include Linter: " ++ (if s.projectOptions.includeLinter then "Yes" else "No"),
      "Reading template files..." ]

/-- The `handleGenerate` handler of `App.tsx`: it returns unchanged when the
project name is empty; otherwise it clears `result` and `explanation`, calls
the engine inside try/catch, and on success stores the complete structure,
the first file, and the architecture explanation, while a caught error only
logs and leaves the cleared `result` at `none`.  The engine is passed as a
parameter standing for the `generateFiles` import. -/
def handleGenerate (engine : EngineFn) (s : AppState) : AppState :=
  if s.projectName = "" then s
  else
    match engine s.projectName s.template s.projectOptions with
    | .error _ =>
        { s with isGenerating := false, result := none, explanation := none,
                 logs := preLogs s ++ ["ERROR: Backend connection failed."] }
    | .ok files =>
        { s with isGenerating := false,
                 result := some { projectName := s.projectName,
                                  template := s.template, files := files },
                 selectedFile := files.head?,
                 explanation := some (getArchitectureExplanation s.template.value),
                 logs := preLogs s ++
                   [ "Processing files...",
                     "Fetching architecture details...",
                     "Done! Generated \"" ++ s.projectName ++ "\" with " ++ s.template.value ++ "." ] }

/-- Engine instance backed by the modelled `generateFiles`, which always
succeeds on a typed template. -/
def okEngine : EngineFn := fun n t o => .ok (generateFiles n t o)

/-- Engine instance standing for a `generateFiles` call that throws. -/
def failEngine : EngineFn := fun _ _ _ => .error "Backend connection failed"

/-- Concrete UI state with an empty project name. -/
def emptyNameState : AppState :=
  { projectName := "", template := .TYPESCRIPT_EXPRESS, logs := [],
    isGenerating := false, result := none, explanation := none,
    selectedFile := none, projectOptions := initialProjectOptions }

/-- Concrete UI state with a non-empty project name. -/
def demoState : AppState :=
  { projectName := "user-api", template := .TYPESCRIPT_EXPRESS, logs := [],
    isGenerating := false, result := none, explanation := none,
    selectedFile := none, projectOptions := initialProjectOptions }

/-- Paths of the files produced by one generation call. -/
def pathsOf (n : String) (t : TemplateType) (o : ProjectOptions) : List String :=
  (generateFiles n t o).map GeneratedFile.path

/-- Files added by enabling `includeTests` with `includeLinter` fixed at
`b`: the files of the enabled run whose path is absent from the disabled
run. -/
def addedByTests (n : String) (t : TemplateType) (b : Bool) : List GeneratedFile :=
  (generateFiles n t ⟨true, b⟩).filter
    (fun f => !((pathsOf n t ⟨false, b⟩).contains f.path))

/-- Files added by enabling `includeLinter` with `includeTests` fixed at
`a`. -/
def addedByLinter (n : String) (t : TemplateType) (a : Bool) : List GeneratedFile :=
  (generateFiles n t ⟨a, true⟩).filter
    (fun f => !((pathsOf n t ⟨a, false⟩).contains f.path))

/-- Segment of a fully resolved output string: either a fixed byte sequence
independent of the project name, or a name-bearing position to be filled
with the literal project name. -/
inductive Seg
  | fixed (s : String)
  | hole
deriving DecidableEq, Repr

/-- Filling of one segment with a concrete project name. -/
def fillSeg (n : String) : Seg → String
  | .fixed s => s
  | .hole => n

/-- Filling of a segment list by ordered concatenation: every hole receives
the literal project name and nothing else changes. -/
def fill (n : String) : List Seg → String
  | [] => ""
  | sg :: rest => fillSeg n sg ++ fill n rest

/-- Name-independent skeleton of one output file: path and content segment
lists plus the fixed language tag. -/
structure FileSkeleton where
  pathSegs : List Seg
  contentSegs : List Seg
  language : String
deriving DecidableEq, Repr

/-- Instantiation of a skeleton at a concrete project name. -/
def instantiateSkeleton (n : String) (k : FileSkeleton) : GeneratedFile :=
  { path := fill n k.pathSegs, content := fill n k.contentSegs,
    language := k.language }

/-- Segment of a path fragment: a literal stays fixed, the placeholder
becomes a hole. -/
def pathPieceSeg : PathPiece → Seg
  | .lit s => .fixed s
  | .name => .hole

/-- Segment of a content fragment once the options are fixed: literals and
resolved conditional fragments are fixed, the placeholder becomes a hole. -/
def pieceSeg (o : ProjectOptions) : Piece → Seg
  | .lit s => .fixed s
  | .name => .hole
  | .whenTests s => .fixed (if o.includeTests then s else "")
  | .whenLinter s => .fixed (if o.includeLinter then s else "")

/-- Skeleton of one blueprint at fixed options. -/
def blueprintSkeleton (o : ProjectOptions) (bp : FileBlueprint) : FileSkeleton :=
  { pathSegs := bp.path.map pathPieceSeg,
    contentSegs := bp.content.map (pieceSeg o),
    language := bp.language }

/-- Language identifiers recognized by the syntax-aware preview. -/
def recognizedLanguages : List String :=
  [ "typescript", "javascript", "go", "json", "yaml", "dockerfile",
    "markdown", "makefile" ]

/-- A tag is entirely lower-case when every character is a lower-case
letter. -/
def isLowerTag (s : String) : Bool := s.data.all (fun c => c.isLower)

/-- Template-specific architecture record of `architectureService.ts`. -/
def archInfoFor : TemplateType → ArchitectureInfo
  | .TYPESCRIPT_EXPRESS => tsExpressArchInfo
  | .GO_CLEAN_ARCH => goCleanArchInfo
  | .CLI_TOOL => cliToolArchInfo

/-- Gating predicates are monotone in the option flags. -/
theorem gate_eval_mono (g : Gate) (o o' : ProjectOptions)
    (h1 : o.includeTests = true → o'.includeTests = true)
    (h2 : o.includeLinter = true → o'.includeLinter = true) :
    g.eval o = true → g.eval o' = true := by
  cases g
  · exact fun _ => rfl
  · exact h1
  · exact h2

/-- Path projection of a generation commutes with blueprint filtering. -/
theorem pathsOf_eq (n : String) (t : TemplateType) (o : ProjectOptions) :
    pathsOf n t o =
      ((catalog t).filter (fun bp => bp.gate.eval o)).map
        (fun bp => renderPath n bp.path) := by
  unfold pathsOf generateFiles
  rw [List.map_map]
  rfl

/-- Weakening the options only removes paths: the path list at the weaker
options is a sublist of the path list at the stronger options. -/
theorem pathsOf_sublist (n : String) (t : TemplateType) (o o' : ProjectOptions)
    (h1 : o.includeTests = true → o'.includeTests = true)
    (h2 : o.includeLinter = true → o'.includeLinter = true) :
    List.Sublist (pathsOf n t o) (pathsOf n t o') := by
  rw [pathsOf_eq, pathsOf_eq]
  exact (List.monotone_filter_right (catalog t)
    (fun bp hbp => gate_eval_mono bp.gate o o' h1 h2 hbp)).map _

/-- Path lists of each template at the full option set. -/
theorem pathsOf_full (n : String) :
    pathsOf n TemplateType.TYPESCRIPT_EXPRESS ⟨true, true⟩ =
      [ "package.json", "tsconfig.json", "src/index.ts",
        "src/services/userService.ts", "Dockerfile", "README.md",
        "jest.config.js", "src/services/userService.test.ts",
        ".eslintrc.json" ] ∧
    pathsOf n TemplateType.GO_CLEAN_ARCH ⟨true, true⟩ =
      [ "go.mod", "cmd/main.go", "internal/domain/user.go",
        "internal/usecase/user_usecase.go", "Dockerfile", "Makefile",
        "README.md", "internal/domain/user_test.go", ".golangci.yml" ] ∧
    pathsOf n TemplateType.CLI_TOOL ⟨true, true⟩ =
      [ "package.json", "src/cli.ts", "README.md", "src/cli.test.ts",
        ".eslintrc.json" ] :=
  ⟨rfl, rfl, rfl⟩

/-- Filling a mapped path-fragment skeleton renders the path. -/
theorem fill_pathSegs (n : String) (l : List PathPiece) :
    fill n (l.map pathPieceSeg) = renderPath n l := by
  induction l with
  | nil => rfl
  | cons p rest ih =>
      cases p <;> simp [fill, renderPath, fillSeg, pathPieceSeg, pathPieceRender, ih]

/-- Filling a mapped content-fragment skeleton renders the content. -/
theorem fill_contentSegs (n : String) (o : ProjectOptions) (l : List Piece) :
    fill n (l.map (pieceSeg o)) = renderPieces n o l := by
  induction l with
  | nil => rfl
  | cons p rest ih =>
      cases p <;> simp [fill, renderPieces, fillSeg, pieceSeg, pieceRender, ih]

/-- Every blueprint of every catalog declares a recognized, lower-case
language tag. -/
theorem catalog_languages (t : TemplateType) :
    ∀ bp ∈ catalog t, bp.language ∈ recognizedLanguages ∧ isLowerTag bp.language = true := by
  cases t <;> decide

/-- Claim C1: for every valid input triple (non-empty project name,
supported template, options), two independent calls of the generation
engine produce identical output — the same files, in the same order, with
identical content; the engine is a pure function of its inputs with no
time dependence. -/
theorem generateFiles_deterministic (n : String) (t : TemplateType)
    (o : ProjectOptions) (_h : n ≠ "") (r₁ r₂ : List GeneratedFile)
    (h₁ : r₁ = generateFiles n t o) (h₂ : r₂ = generateFiles n t o) :
    r₁ = r₂ ∧ r₁.map GeneratedFile.path = r₂.map GeneratedFile.path ∧
      r₁.map GeneratedFile.content = r₂.map GeneratedFile.content := by
  subst h₁; subst h₂; exact ⟨rfl, rfl, rfl⟩

/-- Witness for C1 at a concrete input. -/
theorem generateFiles_deterministic_witness :
    ("user-api" : String) ≠ "" ∧
      generateFiles "user-api" TemplateType.TYPESCRIPT_EXPRESS ⟨true, true⟩ =
        generateFiles "user-api" TemplateType.TYPESCRIPT_EXPRESS ⟨true, true⟩ :=
  ⟨by decide,
   (generateFiles_deterministic "user-api" TemplateType.TYPESCRIPT_EXPRESS
      ⟨true, true⟩ (by decide) _ _ rfl rfl).1⟩

/-- Claim C2: for every project name, supported template and combination of
the two option flags, the file list returned by the engine contains no two
entries with the same path. -/
theorem generateFiles_paths_nodup (n : String) (t : TemplateType)
    (o : ProjectOptions) :
    ((generateFiles n t o).map GeneratedFile.path).Nodup := by
  show (pathsOf n t o).Nodup
  refine List.Nodup.sublist
    (pathsOf_sublist n t o ⟨true, true⟩ (fun _ => rfl) (fun _ => rfl)) ?_
  cases t
  · rw [(pathsOf_full n).1]; decide
  · rw [(pathsOf_full n).2.1]; decide
  · rw [(pathsOf_full n).2.2]; decide

/-- Claim C3: with the other flag held fixed, enabling an option only adds
files (the produced path list grows to a superlist); the files added by
`includeTests` are identical — paths and contents — whichever value
`includeLinter` has, and symmetrically; and in the shared content renderer
a fragment gated by one option renders independently of the other flag, so
toggling one option never removes or alters content contributed by the
other. -/
theorem option_monotonicity (n : String) (t : TemplateType) :
    (∀ b : Bool, List.Sublist (pathsOf n t ⟨false, b⟩) (pathsOf n t ⟨true, b⟩)) ∧
    (∀ a : Bool, List.Sublist (pathsOf n t ⟨a, false⟩) (pathsOf n t ⟨a, true⟩)) ∧
    addedByTests n t true = addedByTests n t false ∧
    addedByLinter n t true = addedByLinter n t false ∧
    (∀ (s : String) (a₁ a₂ b : Bool),
        pieceRender n ⟨a₁, b⟩ (Piece.whenLinter s) =
          pieceRender n ⟨a₂, b⟩ (Piece.whenLinter s)) ∧
    (∀ (s : String) (a b₁ b₂ : Bool),
        pieceRender n ⟨a, b₁⟩ (Piece.whenTests s) =
          pieceRender n ⟨a, b₂⟩ (Piece.whenTests s)) := by
  refine ⟨fun b => pathsOf_sublist n t _ _ (fun h => rfl) (fun h => h),
          fun a => pathsOf_sublist n t _ _ (fun h => h) (fun h => rfl),
          ?_, ?_, fun s a₁ a₂ b => rfl, fun s a b₁ b₂ => rfl⟩
  · cases t <;> rfl
  · cases t <;> rfl

/-- Claim C4: calling the engine with a template identifier outside the
closed supported set fails with a precondition error and never returns a
file list, not even an empty or partial one. -/
theorem generateFilesChecked_unknown (n id : String) (o : ProjectOptions)
    (h : ∀ t : TemplateType, id ≠ t.value) :
    generateFilesChecked n id o = .error ("Unknown template: " ++ id) ∧
      ∀ files : List GeneratedFile, generateFilesChecked n id o ≠ .ok files := by
  have h1 : id ≠ "TypeScript/Express" := h .TYPESCRIPT_EXPRESS
  have h2 : id ≠ "Go/Clean-Arch" := h .GO_CLEAN_ARCH
  have h3 : id ≠ "Node.js CLI (temp-gen)" := h .CLI_TOOL
  have hp : parseTemplateType id = none := by
    unfold parseTemplateType
    rw [if_neg h1, if_neg h2, if_neg h3]
  refine ⟨?_, ?_⟩
  · unfold generateFilesChecked
    rw [hp]
  · intro files hcon
    unfold generateFilesChecked at hcon
    rw [hp] at hcon
    exact Except.noConfusion hcon

/-- Witness for C4 at a concrete unknown identifier. -/
theorem generateFilesChecked_unknown_witness :
    (∀ t : TemplateType, ("Rust/Actix" : String) ≠ t.value) ∧
      generateFilesChecked "app" "Rust/Actix" ⟨true, true⟩ =
        .error ("Unknown template: " ++ "Rust/Actix") :=
  ⟨by intro t; cases t <;> decide,
   (generateFilesChecked_unknown "app" "Rust/Actix" ⟨true, true⟩
      (by intro t; cases t <;> decide)).1⟩

/-- Claim C5: for every template and every fixed option set there is one
name-independent skeleton of the whole output — per file a path segment
list, a content segment list and a language tag — such that generation at
any project name is exactly the skeleton with every hole filled by the
literal name: no placeholder position survives substitution, and two runs
with different names agree byte for byte outside the name-bearing holes. -/
theorem name_substitution_complete (t : TemplateType) (o : ProjectOptions) :
    ∃ skel : List FileSkeleton, ∀ n : String,
      generateFiles n t o = skel.map (instantiateSkeleton n) := by
  refine ⟨((catalog t).filter (fun bp => bp.gate.eval o)).map (blueprintSkeleton o),
          fun n => ?_⟩
  unfold generateFiles
  rw [List.map_map]
  refine List.map_congr_left fun bp _ => ?_
  show resolveBlueprint n o bp = instantiateSkeleton n (blueprintSkeleton o bp)
  simp [resolveBlueprint, instantiateSkeleton, blueprintSkeleton,
        fill_pathSegs, fill_contentSegs]

/-- Claim C6 counterexample: the program initializes both option switches
to `true`, so the claimed `false` default fails on both switches. -/
theorem initialProjectOptions_not_false :
    initialProjectOptions.includeTests ≠ false ∧
      initialProjectOptions.includeLinter ≠ false := by decide

/-- Claim C6 (amended): the default value of each option switch — the
`projectOptions` initial state of the UI — is `true`: both optional
features are included by default. -/
theorem initialProjectOptions_default_true :
    initialProjectOptions = { includeTests := true, includeLinter := true } := rfl

/-- Claim C7: every file produced by the engine carries a language tag from
the recognized, entirely lower-case identifier set. -/
theorem generateFiles_language_tags (n : String) (t : TemplateType)
    (o : ProjectOptions) (f : GeneratedFile) (h : f ∈ generateFiles n t o) :
    f.language ∈ recognizedLanguages ∧ isLowerTag f.language = true := by
  unfold generateFiles at h
  obtain ⟨bp, hbp, rfl⟩ := List.mem_map.mp h
  exact catalog_languages t bp (List.mem_filter.mp hbp).1

/-- Witness for C7 at a concrete generated file. -/
theorem generateFiles_language_tags_witness :
    ({ path := "README.md", content := "# demo\n\nGenerated project.\n",
       language := "markdown" } : GeneratedFile) ∈
        generateFiles "demo" TemplateType.CLI_TOOL ⟨false, false⟩ ∧
      ({ path := "README.md", content := "# demo\n\nGenerated project.\n",
         language := "markdown" } : GeneratedFile).language ∈ recognizedLanguages :=
  ⟨by decide,
   (generateFiles_language_tags "demo" TemplateType.CLI_TOOL ⟨false, false⟩
      _ (by decide)).1⟩

/-- Claim C8: a generation call is atomic for the UI — the handler clears
the displayed result before generating, and if the engine call fails the
result stays `none` (nothing partial is shown), while on success the
complete structure with the full file list is stored. -/
theorem handleGenerate_atomic (engine : EngineFn) (s : AppState)
    (h : s.projectName ≠ "") :
    (∀ e, engine s.projectName s.template s.projectOptions = .error e →
        (handleGenerate engine s).result = none) ∧
    (∀ files, engine s.projectName s.template s.projectOptions = .ok files →
        (handleGenerate engine s).result =
          some { projectName := s.projectName, template := s.template,
                 files := files }) := by
  constructor
  · intro e he
    simp [handleGenerate, h, he]
  · intro files hf
    simp [handleGenerate, h, hf]

/-- Witness for C8: a failing engine call leaves the result cleared. -/
theorem handleGenerate_atomic_witness :
    demoState.projectName ≠ "" ∧
      (handleGenerate failEngine demoState).result = none :=
  ⟨by decide,
   (handleGenerate_atomic failEngine demoState (by decide)).1
     "Backend connection failed" rfl⟩

/-- Claim C9: the architecture service is total — for each of the three
template enum values it returns the fixed template-specific record (never
the generic fallback), and for any identifier outside the enum it returns
the fixed generic fallback instead of failing. -/
theorem getArchitectureExplanation_total :
    (∀ t : TemplateType,
        getArchitectureExplanation t.value = archInfoFor t ∧
          getArchitectureExplanation t.value ≠ genericArchInfo) ∧
    (∀ s : String, s ≠ "TypeScript/Express" → s ≠ "Go/Clean-Arch" →
        s ≠ "Node.js CLI (temp-gen)" →
        getArchitectureExplanation s = genericArchInfo) := by
  constructor
  · intro t
    cases t <;> exact ⟨rfl, by decide⟩
  · intro s h1 h2 h3
    unfold getArchitectureExplanation
    rw [if_neg h1, if_neg h2, if_neg h3]

/-- Witness for C9 at a concrete out-of-enum identifier and a concrete
enum value. -/
theorem getArchitectureExplanation_total_witness :
    getArchitectureExplanation "Rust" = genericArchInfo ∧
      getArchitectureExplanation (TemplateType.value .GO_CLEAN_ARCH) ≠ genericArchInfo :=
  ⟨getArchitectureExplanation_total.2 "Rust" (by decide) (by decide) (by decide),
   (getArchitectureExplanation_total.1 .GO_CLEAN_ARCH).2⟩

/-- Claim C10: with an empty project name the UI handler returns before
generation — the state is unchanged and the outcome does not depend on the
engine at all, so the engine is never reached through this caller. -/
theorem handleGenerate_empty_name (e₁ e₂ : EngineFn) (s : AppState)
    (h : s.projectName = "") :
    handleGenerate e₁ s = s ∧ handleGenerate e₁ s = handleGenerate e₂ s := by
  constructor
  · simp [handleGenerate, h]
  · simp [handleGenerate, h]

/-- Witness for C10 at a concrete empty-name state. -/
theorem handleGenerate_empty_name_witness :
    emptyNameState.projectName = "" ∧
      handleGenerate okEngine emptyNameState = emptyNameState :=
  ⟨rfl, (handleGenerate_empty_name okEngine failEngine emptyNameState rfl).1⟩

end TempGen
